import Mathlib

/-
  Verification of the SMURF iterative map-maker core against its code.

  Shallow embedding of:
    src/applications/smurf/libsmf/smf_calcmodel_ast.c   (astronomical-signal model)
    src/applications/smurf/libsmf/smf_calc_stats.c      (range statistics helper)
    src/applications/smurf/libsmurf/smurf_makemap.c     (exposure-time output block)

  Modelling conventions:
  * C `double` data values are `Option ℚ`: `none` is the undefined sentinel
    VAL__BADD, `some v` an ordinary value.  Residual samples are plain `ℚ`
    (the code does blind arithmetic on them and never compares them with
    VAL__BADD).
  * LUT entries (`int` with sentinel VAL__BADI) are `Option Nat`:
    `none` is VAL__BADI, `some p` a valid flattened map pixel index.
  * Quality words (`smf_qual_t`, an unsigned bitmask) are `Nat`; tests are
    bitwise-and against the mask constants, as in the C.
  * The Starlink inherited-status convention is an explicit `SaiStatus`
    value threaded through the model; Starlink routines are no-ops when the
    status is not SAI__OK, which the model makes explicit with guards.
-/

/-- Starlink inherited status: SAI__OK or an error value set via errRep. -/
inductive SaiStatus where
  | ok : SaiStatus
  | err : SaiStatus
deriving DecidableEq, Repr

/-- Quality bit flagging an entirely bad bolometer (detector), SMF__Q_BADB.
The concrete bit value is from the quality-bit scheme; only its role as a
fixed nonzero mask matters here. -/
def SMF__Q_BADB : Nat := 2

/-- Union of quality bits excluding a sample from model fitting, SMF__Q_MOD.
The concrete value is the union of the model-excluded bits; only its role as
a fixed nonzero mask matters here. -/
def SMF__Q_MOD : Nat := 127

/-- Map-quality bit marking a pixel as constrained to zero, SMF__MAPQ_ZERO
(bit 0 of the map quality word). -/
def SMF__MAPQ_ZERO : Nat := 1

/-- mapqual[i] &= ~SMF__MAPQ_ZERO : clear bit 0, keeping all other bits. -/
def clearMapqZero (q : Nat) : Nat := 2 * (q / 2)

/-- mapqual[i] |= SMF__MAPQ_ZERO : set bit 0, keeping all other bits. -/
def setMapqZero (q : Nat) : Nat := 2 * (q / 2) + 1

/-- One subarray of one chunk, as accessed by smf_calcmodel_ast: raw
dimensions and strides from smf_get_dims, plus the DATA components of the
RES, LUT and QUA smfData objects (flattened, stride-addressed). -/
structure SubData where
  nbolo : Nat
  ntslice : Nat
  bstride : Nat
  tstride : Nat
  res : Nat → ℚ
  lut : Nat → Option Nat
  qua : Nat → Nat

/-- The shared map state touched by smf_calcmodel_ast: dat->map,
dat->mapvar and dat->mapqual. -/
structure MapState where
  map : Nat → Option ℚ
  mapvar : Nat → Option ℚ
  mapqual : Nat → Nat

/-- The body of the per-sample residual update in smf_calcmodel_ast
(lines 355-377): at flat index ii, if the LUT entry is valid, take
m = VAL__BADD when the mapped pixel is masked, else the map value, and
subtract m from the residual when m is good and the sample does not carry
a model-excluded quality bit. -/
def astStep (zmask : Option (Nat → Bool)) (map : Nat → Option ℚ)
    (qua : Nat → Nat) (lut : Nat → Option Nat) (ii : Nat) (r : ℚ) : ℚ :=
  match lut ii with
  | none => r
  | some p =>
    let m : Option ℚ :=
      match zmask with
      | some z => if z p then none else map p
      | none => map p
    match m with
    | none => r
    | some mv => if qua ii &&& SMF__Q_MOD = 0 then r - mv else r

/-- The sequence of flat indices visited by the nested sample loop of
smf_calcmodel_ast (lines 352-355): bolometers i with the SMF__Q_BADB bit
clear at the bolometer start, each time slice j, at flat index
i*bstride + j*tstride. -/
def astKeys (sd : SubData) : List Nat :=
  ((List.range sd.nbolo).filter
      (fun i => sd.qua (i * sd.bstride) &&& SMF__Q_BADB == 0)).flatMap
    (fun i => (List.range sd.ntslice).map
      (fun j => i * sd.bstride + j * sd.tstride))

/-- In-place update of an array (as a function) at a list of indices, each
index transformed once from the value it held when visited. -/
def updateFold (t : Nat → ℚ → ℚ) (g : Nat → ℚ) (L : List Nat) : Nat → ℚ :=
  L.foldl (fun f k => Function.update f k (t k (f k))) g

/-- The residual-subtraction loop of smf_calcmodel_ast over one subarray
(lines 335-380): every visited sample is updated in place by astStep. -/
def subUpdate (zmask : Option (Nat → Bool)) (map : Nat → Option ℚ)
    (sd : SubData) : SubData :=
  { sd with res := updateFold (astStep zmask map sd.qua sd.lut) sd.res (astKeys sd) }

/-- Pixel test of the zero-mask recomputation (line 321 of
smf_calcmodel_ast): map[i] == VAL__BADD || mapvar[i] == VAL__BADD ||
mapvar[i] <= 0.0. -/
def mapPixBad (map mapvar : Nat → Option ℚ) (i : Nat) : Bool :=
  match map i, mapvar i with
  | none, _ => true
  | some _, none => true
  | some _, some v => v ≤ 0

/-- The zero-mask block of smf_calcmodel_ast (lines 311-328), entered when
smf_get_mask returned a mask: first loop clears SMF__MAPQ_ZERO on every
map pixel, second loop sets it on pixels with bad value, bad or
non-positive variance, or a set mask entry. -/
def applyZeroMask (z : Nat → Bool) (msize : Nat) (map mapvar : Nat → Option ℚ)
    (mq : Nat → Nat) : Nat → Nat :=
  let mq1 : Nat → Nat := fun i => if i < msize then clearMapqZero (mq i) else mq i
  fun i =>
    if i < msize then
      if mapPixBad map mapvar i then setMapqZero (mq1 i)
      else if z i then setMapqZero (mq1 i)
      else mq1 i
    else mq1 i

/-- The zero-mask block as a transform of the shared map state: the only
array it assigns to is dat->mapqual. -/
def applyZeroMaskState (z : Nat → Bool) (msize : Nat) (st : MapState) : MapState :=
  { st with mapqual := applyZeroMask z msize st.map st.mapvar st.mapqual }

/-- Concrete chunk for the four-sample scenario: 1 bolometer, 4 time
slices, LUT = [0,0,1,1], residual = [5,7,2,4], all quality clear. -/
def sdScenario : SubData :=
  { nbolo := 1
  , ntslice := 4
  , bstride := 4
  , tstride := 1
  , res := fun n => ([5, 7, 2, 4] : List ℚ).getD n 0
  , lut := fun n => ([some 0, some 0, some 1, some 1] : List (Option Nat)).getD n none
  , qua := fun _ => 0 }

/-- Concrete map for the four-sample scenario: 3 at pixel 0, 1 at pixel 1. -/
def mapScenario : Nat → Option ℚ :=
  fun n => ([some 3, some 1] : List (Option ℚ)).getD n none

/-- pixel with no defined value anywhere: a map of VAL__BADD entries. -/
def mapAllBad : Nat → Option ℚ := fun _ => none

/-- mask marking every pixel for zeroing. -/
def zAllMask : Nat → Bool := fun _ => true

/-- concrete variance map: 1 everywhere (defined and positive). -/
def varScenario : Nat → Option ℚ := fun _ => some 1

/-- concrete map quality: all bits clear. -/
def mqScenario : Nat → Nat := fun _ => 0

/-- concrete shared map state for the scenario. -/
def mapStScenario : MapState :=
  { map := mapScenario, mapvar := varScenario, mapqual := mqScenario }

/-- Arguments and tunables of smf_calcmodel_ast: the AST keymap values
(GAUSSBG, MAPSPIKE, ZERO_NOTLAST), the first/last-iteration control flags,
whether a NOI model exists, the map size, and the behaviour of the three
external collaborators: smf_get_mask (its returned mask, or none for NULL),
the Gaussian high-pass filter pipeline (smf_filter_execute and friends)
and the despiker smf_map_spikes, the last two as opaque transforms since
they live outside src/. -/
structure AstArgs where
  gaussbg : ℚ
  mapspike : ℚ
  zero_notlast : Bool
  firstIter : Bool
  lastIter : Bool
  noi : Bool
  msize : Nat
  zmaskParam : Option (Nat → Bool)
  filterExec : (Nat → Option ℚ) → (Nat → Option ℚ)
  spikeExec : List SubData → List SubData

/-- Full state seen by smf_calcmodel_ast: inherited status, shared map
state, the chunk's subarrays, and an observation flag recording whether the
Gaussian high-pass filter was executed in this invocation. -/
structure AstFull where
  status : SaiStatus
  mapst : MapState
  subs : List SubData
  filtered : Bool

/-- Pre-filter apodization of smf_calcmodel_ast (lines 284-286): map pixels
holding VAL__BADD are set to 0 before the Gaussian filter runs. -/
def zeroBadMap (msize : Nat) (map : Nat → Option ℚ) : Nat → Option ℚ :=
  fun i => if i < msize ∧ map i = none then some 0 else map i

/-- GAUSSBG parameter check of smf_calcmodel_ast (lines 230-234): a
negative value sets the error status via errRep; execution continues, but
every later Starlink call is a no-op on bad status, which the later stages
make explicit as status guards. -/
def astCheckGaussbg (a : AstArgs) (st : AstFull) : AstFull :=
  if a.gaussbg < 0 then { st with status := SaiStatus.err } else st

/-- Despiking stage of smf_calcmodel_ast (lines 239-254): when MAPSPIKE is
positive, a NOI model exists and this is not the first iteration,
smf_map_spikes (outside src/, an opaque transform here) flags spikes in
the quality arrays. -/
def astSpikeStage (a : AstArgs) (st : AstFull) : AstFull :=
  if 0 < a.mapspike ∧ a.noi = true ∧ a.firstIter = false ∧
      st.status = SaiStatus.ok
  then { st with subs := a.spikeExec st.subs } else st

/-- Gaussian background-suppression stage of smf_calcmodel_ast (lines
259-304): when GAUSSBG is non-zero and not (ZERO_NOTLAST and last
iteration), set the VAL__BADD map pixels to 0 and run the high-pass filter
(smf_filter_execute, outside src/, an opaque transform here); the filter
work is inside an SAI__OK guard. -/
def astFilterStage (a : AstArgs) (st : AstFull) : AstFull :=
  if a.gaussbg ≠ 0 ∧ ¬(a.zero_notlast = true ∧ a.lastIter = true) ∧
      st.status = SaiStatus.ok
  then { st with
           mapst := { st.mapst with
                        map := a.filterExec (zeroBadMap a.msize st.mapst.map) },
           filtered := true }
  else st

/-- The mask obtained from smf_get_mask (line 308): smf_get_mask is outside
src/, so its answer is the zmaskParam argument; it returns NULL on bad
status. -/
def astZmaskOf (a : AstArgs) (st : AstFull) : Option (Nat → Bool) :=
  if st.status = SaiStatus.ok then a.zmaskParam else none

/-- Zero-mask stage of smf_calcmodel_ast (lines 310-328): when a mask was
obtained, recompute the SMF__MAPQ_ZERO bits over the map. -/
def astMaskStage (a : AstArgs) (st : AstFull) : AstFull :=
  match astZmaskOf a st with
  | some zz => { st with mapst := applyZeroMaskState zz a.msize st.mapst }
  | none => st

/-- Residual-subtraction stage of smf_calcmodel_ast (lines 334-380): on
good status, run the per-subarray subtraction loop (on bad status
smf_get_dims leaves the dimensions zero, so the loop body never runs). -/
def astResStage (a : AstArgs) (st : AstFull) : AstFull :=
  if st.status = SaiStatus.ok
  then { st with subs := st.subs.map (subUpdate (astZmaskOf a st) st.mapst.map) }
  else st

/-- smf_calcmodel_ast as a state transform, following the C control flow:
return at once on bad status, then the GAUSSBG check, the despiking stage,
the Gaussian filter stage, the zero-mask stage and the residual
subtraction, in the order of the C function. -/
def smf_calcmodel_ast (a : AstArgs) (st : AstFull) : AstFull :=
  if st.status ≠ SaiStatus.ok then st
  else astResStage a (astMaskStage a (astFilterStage a (astSpikeStage a
    (astCheckGaussbg a st))))

/-- Modelled from the spec: the iteration loop of smf_iteratemap is not
under src/; design section 4.1 has it invoke each model component in
registry order once per iteration, starting from iteration 0, with nothing
invoked before the loop.  Only the astronomical-signal component matters
here: iterloop a st n is the state after n whole iterations. -/
def iterloop (a : AstArgs) (st : AstFull) : Nat → AstFull
  | 0 => st
  | n + 1 => smf_calcmodel_ast a (iterloop a st n)

/-- concrete tunables with a negative background-suppression bandwidth. -/
def astArgsNegBg : AstArgs :=
  { gaussbg := -1
  , mapspike := 0
  , zero_notlast := false
  , firstIter := true
  , lastIter := false
  , noi := false
  , msize := 0
  , zmaskParam := none
  , filterExec := id
  , spikeExec := id }

/-- concrete tunables with a positive bandwidth and ZERO_NOTLAST unset. -/
def astArgsBg : AstArgs := { astArgsNegBg with gaussbg := 2 }

/-- concrete full state: SAI__OK, the scenario map state and chunk. -/
def astFull0 : AstFull :=
  { status := SaiStatus.ok
  , mapst := mapStScenario
  , subs := [sdScenario]
  , filtered := false }

/-- Mode argument of smf_calc_stats: first character b (per-bolometer), t
(per-timeslice), or anything else (unsupported). -/
inductive StatsMode where
  | b : StatsMode
  | t : StatsMode
  | other : StatsMode
deriving DecidableEq, Repr

/-- nmax of smf_calc_stats (lines 208, 214): the bound on index. -/
def statsNmax (mode : StatsMode) (d0 d1 d2 : Nat) : Nat :=
  match mode with
  | StatsMode.b => d0 * d1
  | _ => d2

/-- nsamp of smf_calc_stats (lines 209, 215): the bound on lo and hi. -/
def statsNsamp (mode : StatsMode) (d0 d1 d2 : Nat) : Nat :=
  match mode with
  | StatsMode.b => d2
  | _ => d0 * d1

/-- nbol of smf_calc_stats (lines 210, 216). -/
def statsNbol (mode : StatsMode) (d0 d1 _d2 : Nat) : Nat :=
  match mode with
  | StatsMode.b => d0 * d1
  | _ => d0 * d1

/-- offset of smf_calc_stats (lines 302-307). -/
def statsOffset (mode : StatsMode) (nbol index : Nat) : Nat :=
  match mode with
  | StatsMode.b => index
  | _ => nbol * index

/-- mult of smf_calc_stats (lines 302-307). -/
def statsMult (mode : StatsMode) (nbol : Nat) : Nat :=
  match mode with
  | StatsMode.b => nbol
  | _ => 1

/-- The range normalization of smf_calc_stats (lines 260-272): swap lo and
hi when lo > hi, then expand a (0,0) range to the whole sample range. -/
def statsRange (nsamp lo hi : Nat) : Nat × Nat :=
  let lo2 := if lo > hi then hi else lo
  let hi2 := if lo > hi then lo else hi
  (lo2, if lo2 = 0 ∧ hi2 = 0 then nsamp - 1 else hi2)

/-- The extraction loop of smf_calc_stats (lines 315-327): copy the
inclusive range r into a fresh array, striding by mult from offset. -/
def statsExtract (arr : Nat → Option ℚ) (offset mult : Nat) (r : Nat × Nat) :
    List (Option ℚ) :=
  (List.range (r.2 - r.1 + 1)).map (fun k => arr (offset + (r.1 + k) * mult))

/-- smf_calc_stats: compute statistics of an inclusive index range of one
bolometer or one time slice of a 3-d data cube.  The external statistics
routine kpgStatd (kaplibs, outside src/) is the stat parameter, mapping the
extracted values to (mean, stdev).  Mirrors the C checks in order: entry
status, dimensionality, mode, index bound, lo and hi bounds, swap of a
reversed range, whole-range default, and the degenerate lo = hi error; on
any error mean and stdev hold VAL__BADD (initialized at lines 188-189). -/
def smf_calc_stats (stat : List (Option ℚ) → Option ℚ × Option ℚ)
    (ndims d0 d1 d2 : Nat) (arr : Nat → Option ℚ) (mode : StatsMode)
    (index lo hi : Nat) (status : SaiStatus) :
    SaiStatus × Option ℚ × Option ℚ :=
  if status ≠ SaiStatus.ok then (status, none, none) else
  if ndims ≠ 3 then (SaiStatus.err, none, none) else
  if mode = StatsMode.other then (SaiStatus.err, none, none) else
  if index ≥ statsNmax mode d0 d1 d2 then (SaiStatus.err, none, none) else
  if lo ≥ statsNsamp mode d0 d1 d2 then (SaiStatus.err, none, none) else
  if hi ≥ statsNsamp mode d0 d1 d2 then (SaiStatus.err, none, none) else
  if (statsRange (statsNsamp mode d0 d1 d2) lo hi).1
      = (statsRange (statsNsamp mode d0 d1 d2) lo hi).2
  then (SaiStatus.err, none, none)
  else
    ((SaiStatus.ok : SaiStatus),
      (stat (statsExtract arr (statsOffset mode (statsNbol mode d0 d1 d2) index)
        (statsMult mode (statsNbol mode d0 d1 d2))
        (statsRange (statsNsamp mode d0 d1 d2) lo hi))).1,
      (stat (statsExtract arr (statsOffset mode (statsNbol mode d0 d1 d2) index)
        (statsMult mode (statsNbol mode d0 d1 d2))
        (statsRange (statsNsamp mode d0 d1 d2) lo hi))).2)

/-- a trivial concrete statistics routine for witnesses. -/
def statZero : List (Option ℚ) → Option ℚ × Option ℚ := fun _ => (some 0, some 0)

/-- a concrete all-ones data array. -/
def arrOnes : Nat → Option ℚ := fun _ => some 1

/-- The exposure-time assignment of smurf_makemap (lines 1176-1185): at a
pixel whose map value is VAL__BADD the exposure time is VAL__BADD,
otherwise steptime times the hit count. -/
def expTimePix (steptime : ℚ) (map : Nat → Option ℚ) (hitsmap : Nat → Nat)
    (i : Nat) : Option ℚ :=
  match map i with
  | none => none
  | some _ => some (steptime * (hitsmap i : ℚ))

/-- The EXP_TIME array written by smurf_makemap: a fresh array whose first
nxy pixels are filled by the loop at lines 1176-1185. -/
def exp_time_arr (steptime : ℚ) (map : Nat → Option ℚ) (hitsmap : Nat → Nat)
    (nxy : Nat) : Nat → Option ℚ :=
  fun i => if i < nxy then expTimePix steptime map hitsmap i else none

/-- Modelled from the spec: smf_find_median is not under src/; section 6
says the output carries the median of the exposure-time array across valid
pixels, so take the middle element of the sorted defined entries (none when
no pixel is valid). -/
def medianValid (xs : List (Option ℚ)) : Option ℚ :=
  (List.insertionSort (fun a b => a ≤ b) (xs.filterMap id)).get?
    (((xs.filterMap id).length - 1) / 2)

/-- The exposure-time output block of smurf_makemap (lines 1175-1185 and
1204-1212): the EXP_TIME array and its median over the map. -/
def makemapExpTime (steptime : ℚ) (map : Nat → Option ℚ) (hitsmap : Nat → Nat)
    (nxy : Nat) : (Nat → Option ℚ) × Option ℚ :=
  (exp_time_arr steptime map hitsmap nxy,
   medianValid ((List.range nxy).map (exp_time_arr steptime map hitsmap nxy)))

/-- a concrete hit-count map: 3 hits everywhere. -/
def hitsThree : Nat → Nat := fun _ => 3

-- THEOREMS

/-- updateFold at nodup keys: each key is transformed once from its
original value; other indices are untouched. -/
theorem updateFold_eq (t : Nat → ℚ → ℚ) :
    ∀ (L : List Nat), L.Nodup → ∀ (g : Nat → ℚ) (k : Nat),
      updateFold t g L k = if k ∈ L then t k (g k) else g k := by
  intro L
  induction L with
  | nil => intro _ g k; simp [updateFold]
  | cons a L ih =>
    intro hnd g k
    rcases List.nodup_cons.mp hnd with ⟨ha, hL⟩
    have hstep : updateFold t g (a :: L) k
        = updateFold t (Function.update g a (t a (g a))) L k := rfl
    rw [hstep, ih hL]
    by_cases hk : k = a
    · subst hk
      have hnot : k ∉ L := ha
      simp [hnot, Function.update_same]
    · simp [Function.update_noteq hk, hk]

/-- Every flat index reached by the nested sample loop for a bolometer
whose SMF__Q_BADB bit is clear is in the visited key list. -/
theorem mem_astKeys (sd : SubData) (i j : Nat)
    (hi : i < sd.nbolo) (hj : j < sd.ntslice)
    (hb : sd.qua (i * sd.bstride) &&& SMF__Q_BADB = 0) :
    i * sd.bstride + j * sd.tstride ∈ astKeys sd := by
  simp only [astKeys, List.mem_flatMap, List.mem_filter, List.mem_range,
    List.mem_map]
  exact ⟨i, ⟨hi, by simp [hb]⟩, j, hj, rfl⟩

/-- The residual loop at a visited sample applies exactly the per-sample
step to the original residual value. -/
theorem subUpdate_at (zmask : Option (Nat → Bool)) (map : Nat → Option ℚ)
    (sd : SubData) (i j : Nat)
    (hnd : (astKeys sd).Nodup)
    (hi : i < sd.nbolo) (hj : j < sd.ntslice)
    (hb : sd.qua (i * sd.bstride) &&& SMF__Q_BADB = 0) :
    (subUpdate zmask map sd).res (i * sd.bstride + j * sd.tstride)
      = astStep zmask map sd.qua sd.lut (i * sd.bstride + j * sd.tstride)
          (sd.res (i * sd.bstride + j * sd.tstride)) := by
  have hmem := mem_astKeys sd i j hi hj hb
  simp only [subUpdate]
  rw [updateFold_eq _ _ hnd, if_pos hmem]

/-- C1: with one chunk of 4 samples, LUT = [0,0,1,1], residuals [5,7,2,4],
map values 3 and 1 at pixels 0 and 1 and no masking, the astronomical
signal subtraction leaves residuals [2,4,1,3]. -/
theorem ast_scenario_residuals :
    (subUpdate none mapScenario sdScenario).res 0 = 2 ∧
    (subUpdate none mapScenario sdScenario).res 1 = 4 ∧
    (subUpdate none mapScenario sdScenario).res 2 = 1 ∧
    (subUpdate none mapScenario sdScenario).res 3 = 3 := by
  norm_num [subUpdate, updateFold, astKeys, astStep, sdScenario, mapScenario,
    Function.update, SMF__Q_MOD, SMF__Q_BADB, List.range_succ]

/-- C2: at every sample with a valid LUT index on a detector whose bad
bolometer bit is clear, the mapped pixel value is subtracted from the
residual, unless the pixel is masked to zero (residual untouched) or the
sample carries a model-excluded quality bit (residual untouched); the
result is exactly old residual minus map value, with no prior contribution
re-added. -/
theorem ast_residual_update_rule (zmask : Option (Nat → Bool))
    (map : Nat → Option ℚ) (sd : SubData) (i j ii p : Nat) (v : ℚ)
    (hnd : (astKeys sd).Nodup)
    (hi : i < sd.nbolo) (hj : j < sd.ntslice)
    (hii : ii = i * sd.bstride + j * sd.tstride)
    (hb : sd.qua (i * sd.bstride) &&& SMF__Q_BADB = 0)
    (hlut : sd.lut ii = some p)
    (hmap : map p = some v) :
    ((zmask = none ∨ ∃ z, zmask = some z ∧ z p = false) →
        sd.qua ii &&& SMF__Q_MOD = 0 →
        (subUpdate zmask map sd).res ii = sd.res ii - v) ∧
    (∀ z, zmask = some z → z p = true →
        (subUpdate zmask map sd).res ii = sd.res ii) ∧
    (sd.qua ii &&& SMF__Q_MOD ≠ 0 →
        (subUpdate zmask map sd).res ii = sd.res ii) := by
  subst hii
  have hat := subUpdate_at zmask map sd i j hnd hi hj hb
  refine ⟨?_, ?_, ?_⟩
  · rintro (hz | ⟨z, hz, hzp⟩) hmod
    · subst hz
      rw [hat]
      simp [astStep, hlut, hmap, hmod]
    · subst hz
      rw [hat]
      simp [astStep, hlut, hmap, hmod, hzp]
  · rintro z hz hzp
    subst hz
    rw [hat]
    simp [astStep, hlut, hzp]
  · intro hmod
    rw [hat]
    rcases zmask with _ | z
    · simp [astStep, hlut, hmap, hmod]
    · by_cases hzp : z p
      · simp [astStep, hlut, hzp]
      · simp [astStep, hlut, hmap, hmod, hzp]

/-- C2 witness: the subtraction rule applied to the concrete four-sample
scenario at sample 0 (pixel 0, map value 3, no mask, no quality bits). -/
theorem ast_residual_update_rule_witness :
    (astKeys sdScenario).Nodup ∧
    (subUpdate none mapScenario sdScenario).res 0 = sdScenario.res 0 - 3 := by
  refine ⟨by decide, ?_⟩
  have h := ast_residual_update_rule none mapScenario sdScenario 0 0 0 0 3
    (by decide) (by decide) (by decide) (by decide) (by decide) (by rfl)
    (by rfl)
  exact h.1 (Or.inl rfl) (by decide)

/-- C9: at a sample with a valid LUT index, good detector and quality bits
permitting model fitting, if the mapped pixel value is the undefined
sentinel VAL__BADD the subtraction is skipped and the residual is
unchanged, even with no mask active; the sentinel never reaches the
residual. -/
theorem ast_bad_map_value_skipped (map : Nat → Option ℚ) (sd : SubData)
    (i j ii p : Nat)
    (hnd : (astKeys sd).Nodup)
    (hi : i < sd.nbolo) (hj : j < sd.ntslice)
    (hii : ii = i * sd.bstride + j * sd.tstride)
    (hb : sd.qua (i * sd.bstride) &&& SMF__Q_BADB = 0)
    (hlut : sd.lut ii = some p)
    (hmap : map p = none)
    (hmod : sd.qua ii &&& SMF__Q_MOD = 0) :
    (subUpdate none map sd).res ii = sd.res ii := by
  subst hii
  rw [subUpdate_at none map sd i j hnd hi hj hb]
  simp [astStep, hlut, hmap]

/-- C9 witness: the undefined-map-value skip applied to the concrete
four-sample scenario with an all-VAL__BADD map. -/
theorem ast_bad_map_value_skipped_witness :
    (astKeys sdScenario).Nodup ∧
    (subUpdate none mapAllBad sdScenario).res 0 = sdScenario.res 0 := by
  exact ⟨by decide,
    ast_bad_map_value_skipped mapAllBad sdScenario 0 0 0 0
      (by decide) (by decide) (by decide) (by decide) (by decide) (by decide)
      rfl (by decide)⟩

/-- The Bool pixel test of the zero-mask recomputation matches the
propositional condition: undefined value, or undefined or non-positive
variance. -/
theorem mapPixBad_iff (map mapvar : Nat → Option ℚ) (i : Nat) :
    mapPixBad map mapvar i = true ↔
      (map i = none ∨ mapvar i = none ∨ ∃ v, mapvar i = some v ∧ v ≤ 0) := by
  rcases hm : map i with _ | mv <;> rcases hv : mapvar i with _ | vv <;>
    simp [mapPixBad, hm, hv]

/-- set and clear of the SMF__MAPQ_ZERO bit, observed through the bit
test used by the code. -/
theorem setMapqZero_test (q : Nat) : setMapqZero q &&& SMF__MAPQ_ZERO ≠ 0 := by
  show (2 * (q / 2) + 1) &&& 1 ≠ 0
  rw [Nat.and_one_is_mod]
  omega

/-- clearing the SMF__MAPQ_ZERO bit makes its bit test fail. -/
theorem clearMapqZero_test (q : Nat) : clearMapqZero q &&& SMF__MAPQ_ZERO = 0 := by
  show (2 * (q / 2)) &&& 1 = 0
  rw [Nat.and_one_is_mod]
  omega

/-- C3: after the zero-mask block runs with an obtained mask, a map pixel
inside the map carries the SMF__MAPQ_ZERO bit if and only if its value is
undefined, or its variance is undefined or non-positive, or the mask marks
it; the bit is first cleared everywhere, so no stale bit survives. -/
theorem ast_zero_mask_bit (z : Nat → Bool) (msize : Nat)
    (map mapvar : Nat → Option ℚ) (mq : Nat → Nat) (i : Nat)
    (hi : i < msize) :
    (applyZeroMask z msize map mapvar mq i) &&& SMF__MAPQ_ZERO ≠ 0 ↔
      (map i = none ∨ mapvar i = none ∨ (∃ v, mapvar i = some v ∧ v ≤ 0) ∨
        z i = true) := by
  simp only [applyZeroMask, if_pos hi]
  by_cases hbad : mapPixBad map mapvar i = true
  · rcases (mapPixBad_iff map mapvar i).mp hbad with h | h | h <;>
      simp [hbad, setMapqZero_test, h]
  · by_cases hz : z i = true
    · simp [hbad, hz, setMapqZero_test]
    · have hnb := hbad
      rw [mapPixBad_iff] at hnb
      push_neg at hnb
      rw [if_neg hbad, if_neg hz]
      constructor
      · intro hc
        exact absurd (clearMapqZero_test (mq i)) hc
      · rintro (h | h | h | h)
        · exact absurd h hnb.1
        · exact absurd h hnb.2.1
        · rcases h with ⟨v, hv, hvle⟩
          exact absurd (hnb.2.2 v hv) (not_lt.mpr hvle)
        · exact absurd h hz

/-- C3 witness: pixel 0 of the concrete scenario state (defined value,
positive variance, masked by an all-true mask) gets the zero bit. -/
theorem ast_zero_mask_bit_witness :
    0 < 2 ∧
    (applyZeroMask zAllMask 2 mapScenario varScenario mqScenario 0) &&&
      SMF__MAPQ_ZERO ≠ 0 := by
  refine ⟨by decide, ?_⟩
  exact (ast_zero_mask_bit zAllMask 2 mapScenario varScenario mqScenario 0
    (by decide)).mpr (Or.inr (Or.inr (Or.inr rfl)))

/-- C8: applying the zero mask changes only the per-pixel quality words of
the shared map state: the map values and variances are untouched; and a
sample whose LUT entry points at a masked pixel keeps its residual
unchanged, so masked pixels are excluded from subtraction without their
data being deleted or overwritten. -/
theorem ast_zero_mask_frame (z : Nat → Bool) (msize : Nat) (st : MapState)
    (sd : SubData) (hnd : (astKeys sd).Nodup) :
    (applyZeroMaskState z msize st).map = st.map ∧
    (applyZeroMaskState z msize st).mapvar = st.mapvar ∧
    ∀ ii p, sd.lut ii = some p → z p = true →
      (subUpdate (some z) st.map sd).res ii = sd.res ii := by
  refine ⟨rfl, rfl, ?_⟩
  intro ii p hlut hzp
  simp only [subUpdate]
  rw [updateFold_eq _ _ hnd]
  by_cases hmem : ii ∈ astKeys sd
  · simp [hmem, astStep, hlut, hzp]
  · simp [hmem]

/-- C8 witness: the frame property at the concrete scenario state with an
all-true mask, observed at sample 0. -/
theorem ast_zero_mask_frame_witness :
    (applyZeroMaskState zAllMask 2 mapStScenario).map = mapStScenario.map ∧
    (subUpdate (some zAllMask) mapStScenario.map sdScenario).res 0
      = sdScenario.res 0 := by
  have h := ast_zero_mask_frame zAllMask 2 mapStScenario sdScenario (by decide)
  exact ⟨h.1, h.2.2 0 0 (by decide) rfl⟩

/-- on bad status the despiking stage does nothing. -/
theorem astSpikeStage_err (a : AstArgs) (st : AstFull)
    (h : st.status = SaiStatus.err) : astSpikeStage a st = st := by
  simp [astSpikeStage, h]

/-- on bad status the filter stage does nothing. -/
theorem astFilterStage_err (a : AstArgs) (st : AstFull)
    (h : st.status = SaiStatus.err) : astFilterStage a st = st := by
  simp [astFilterStage, h]

/-- on bad status smf_get_mask returns NULL, so the mask stage does
nothing. -/
theorem astMaskStage_err (a : AstArgs) (st : AstFull)
    (h : st.status = SaiStatus.err) : astMaskStage a st = st := by
  simp [astMaskStage, astZmaskOf, h]

/-- on bad status the subtraction loop never runs. -/
theorem astResStage_err (a : AstArgs) (st : AstFull)
    (h : st.status = SaiStatus.err) : astResStage a st = st := by
  simp [astResStage, h]

/-- the despiking stage touches only the subarrays. -/
theorem astSpikeStage_proj (a : AstArgs) (st : AstFull) :
    (astSpikeStage a st).status = st.status ∧
    (astSpikeStage a st).filtered = st.filtered ∧
    (astSpikeStage a st).mapst = st.mapst := by
  unfold astSpikeStage
  split <;> exact ⟨rfl, rfl, rfl⟩

/-- the filter stage never changes the status. -/
theorem astFilterStage_status (a : AstArgs) (st : AstFull) :
    (astFilterStage a st).status = st.status := by
  unfold astFilterStage
  split <;> rfl

/-- when its condition holds on good status, the filter stage records that
the filter ran. -/
theorem astFilterStage_filtered_pos (a : AstArgs) (st : AstFull)
    (hok : st.status = SaiStatus.ok)
    (hc : a.gaussbg ≠ 0 ∧ ¬(a.zero_notlast = true ∧ a.lastIter = true)) :
    (astFilterStage a st).filtered = true := by
  simp [astFilterStage, hok, hc.1, hc.2]

/-- when its condition fails, the filter stage leaves the state alone. -/
theorem astFilterStage_filtered_neg (a : AstArgs) (st : AstFull)
    (hc : ¬(a.gaussbg ≠ 0 ∧ ¬(a.zero_notlast = true ∧ a.lastIter = true))) :
    (astFilterStage a st).filtered = st.filtered := by
  unfold astFilterStage
  rw [if_neg]
  intro h
  exact hc ⟨h.1, h.2.1⟩

/-- the mask stage touches only the map state, and only its quality. -/
theorem astMaskStage_proj (a : AstArgs) (st : AstFull) :
    (astMaskStage a st).status = st.status ∧
    (astMaskStage a st).filtered = st.filtered ∧
    (astMaskStage a st).subs = st.subs := by
  unfold astMaskStage
  rcases astZmaskOf a st with _ | zz <;> exact ⟨rfl, rfl, rfl⟩

/-- the subtraction stage touches only the subarrays. -/
theorem astResStage_proj (a : AstArgs) (st : AstFull) :
    (astResStage a st).status = st.status ∧
    (astResStage a st).filtered = st.filtered ∧
    (astResStage a st).mapst = st.mapst := by
  unfold astResStage
  split <;> exact ⟨rfl, rfl, rfl⟩

/-- C4 (amended): a negative AST.GAUSSBG is fatal — the component sets the
error status at once and its whole invocation does nothing else: map
state, subarrays and the filter flag are returned untouched. -/
theorem ast_gaussbg_negative_fatal (a : AstArgs) (st : AstFull)
    (hok : st.status = SaiStatus.ok) (hg : a.gaussbg < 0) :
    smf_calcmodel_ast a st = { st with status := SaiStatus.err } := by
  have h0 : astCheckGaussbg a st = { st with status := SaiStatus.err } := by
    unfold astCheckGaussbg
    rw [if_pos hg]
  unfold smf_calcmodel_ast
  rw [if_neg (by simp [hok]), h0, astSpikeStage_err _ _ rfl,
    astFilterStage_err _ _ rfl, astMaskStage_err _ _ rfl,
    astResStage_err _ _ rfl]

/-- C4 witness: the fatal-error behaviour at the concrete negative
bandwidth configuration. -/
theorem ast_gaussbg_negative_fatal_witness :
    astFull0.status = SaiStatus.ok ∧
    smf_calcmodel_ast astArgsNegBg astFull0
      = { astFull0 with status := SaiStatus.err } := by
  exact ⟨rfl, ast_gaussbg_negative_fatal astArgsNegBg astFull0 rfl (by norm_num [astArgsNegBg])⟩

/-- C4 counterexample: under the spec's own iteration-loop shape, nothing
runs before iteration 0, so with AST.GAUSSBG = -1 the status entering the
loop is still SAI__OK and the error is raised during the first iteration
— the bad bandwidth is detected during an iteration, not before the loop
starts. -/
theorem ast_gaussbg_not_detected_before_loop :
    (iterloop astArgsNegBg astFull0 0).status = SaiStatus.ok ∧
    (iterloop astArgsNegBg astFull0 1).status = SaiStatus.err := by
  constructor
  · rfl
  · show (smf_calcmodel_ast astArgsNegBg astFull0).status = SaiStatus.err
    rw [ast_gaussbg_negative_fatal astArgsNegBg astFull0 rfl
      (by norm_num [astArgsNegBg])]

/-- C7: entering with SAI__OK and a non-negative bandwidth (a negative one
is a fatal configuration error handled separately), the Gaussian
smooth-and-subtract filter on the map runs if and only if AST.GAUSSBG is
non-zero and it is not the case that ZERO_NOTLAST is set and this
invocation is the final iteration. -/
theorem ast_gaussbg_filter_condition (a : AstArgs) (st : AstFull)
    (hok : st.status = SaiStatus.ok) (hflt : st.filtered = false)
    (hg : 0 ≤ a.gaussbg) :
    ((smf_calcmodel_ast a st).filtered = true ↔
      (a.gaussbg ≠ 0 ∧ ¬(a.zero_notlast = true ∧ a.lastIter = true))) := by
  have hng : ¬(a.gaussbg < 0) := not_lt.mpr hg
  have h0 : astCheckGaussbg a st = st := by
    unfold astCheckGaussbg
    rw [if_neg hng]
  unfold smf_calcmodel_ast
  rw [if_neg (by simp [hok]), h0, (astResStage_proj _ _).2.1,
    (astMaskStage_proj _ _).2.1]
  by_cases hc : a.gaussbg ≠ 0 ∧ ¬(a.zero_notlast = true ∧ a.lastIter = true)
  · rw [astFilterStage_filtered_pos _ _ (by rw [(astSpikeStage_proj a st).1, hok]) hc]
    simp [hc]
  · rw [astFilterStage_filtered_neg _ _ hc, (astSpikeStage_proj a st).2.1, hflt]
    exact iff_of_false (by simp) hc

/-- C7 witness: with bandwidth 2, ZERO_NOTLAST unset and not the last
iteration, the filter runs on the concrete state. -/
theorem ast_gaussbg_filter_condition_witness :
    astFull0.status = SaiStatus.ok ∧
    (smf_calcmodel_ast astArgsBg astFull0).filtered = true := by
  refine ⟨rfl, ?_⟩
  exact (ast_gaussbg_filter_condition astArgsBg astFull0 rfl rfl
      (by norm_num [astArgsBg, astArgsNegBg])).mpr
    ⟨by norm_num [astArgsBg, astArgsNegBg],
     by simp [astArgsBg, astArgsNegBg]⟩

/-- the range normalization is symmetric in its two bounds. -/
theorem statsRange_symm (nsamp lo hi : Nat) :
    statsRange nsamp lo hi = statsRange nsamp hi lo := by
  unfold statsRange
  rcases Nat.lt_trichotomy lo hi with h | h | h
  · have h1 : ¬(lo > hi) := by omega
    have h2 : hi > lo := h
    simp [h1, h2]
  · subst h
    simp
  · have h1 : lo > hi := h
    have h2 : ¬(hi > lo) := by omega
    simp [h1, h2]

/-- C10: smf_calc_stats is symmetric in its range bounds: a call with
bounds (lo, hi) returns the same status, mean and standard deviation as a
call with bounds (hi, lo), because a reversed range is swapped before
use. -/
theorem smf_calc_stats_swap_symmetric
    (stat : List (Option ℚ) → Option ℚ × Option ℚ) (ndims d0 d1 d2 : Nat)
    (arr : Nat → Option ℚ) (mode : StatsMode) (index lo hi : Nat)
    (status : SaiStatus) :
    smf_calc_stats stat ndims d0 d1 d2 arr mode index lo hi status
      = smf_calc_stats stat ndims d0 d1 d2 arr mode index hi lo status := by
  unfold smf_calc_stats
  by_cases hst : status ≠ SaiStatus.ok
  · rw [if_pos hst, if_pos hst]
  · rw [if_neg hst, if_neg hst]
    by_cases hnd : ndims ≠ 3
    · rw [if_pos hnd, if_pos hnd]
    · rw [if_neg hnd, if_neg hnd]
      by_cases hm : mode = StatsMode.other
      · rw [if_pos hm, if_pos hm]
      · rw [if_neg hm, if_neg hm]
        by_cases hidx : index ≥ statsNmax mode d0 d1 d2
        · rw [if_pos hidx, if_pos hidx]
        · rw [if_neg hidx, if_neg hidx,
            statsRange_symm (statsNsamp mode d0 d1 d2) hi lo]
          by_cases h1 : lo ≥ statsNsamp mode d0 d1 d2 <;>
            by_cases h2 : hi ≥ statsNsamp mode d0 d1 d2 <;>
              simp [h1, h2]

/-- C5 counterexample: a degenerate range (lo = hi = 2) on a valid
3-dimensional cube makes smf_calc_stats set the fatal error status — the
unit is not skipped with the run continuing under SAI__OK. -/
theorem smf_calc_stats_lo_eq_hi_sets_error :
    smf_calc_stats statZero 3 2 2 4 arrOnes StatsMode.b 0 2 2 SaiStatus.ok
      = (SaiStatus.err, none, none) := by decide

/-- C5 (amended): a requested statistics range resolving to a single point
(lo = hi, non-zero, in bounds) is an error in smf_calc_stats: the routine
sets the error status and returns mean and standard deviation as the
undefined sentinel VAL__BADD; it is the caller's job, not this routine's,
to treat a degenerate unit as skippable. -/
theorem smf_calc_stats_degenerate_range_err
    (stat : List (Option ℚ) → Option ℚ × Option ℚ) (ndims d0 d1 d2 : Nat)
    (arr : Nat → Option ℚ) (mode : StatsMode) (index lo hi : Nat)
    (status : SaiStatus)
    (hst : status = SaiStatus.ok) (h3 : ndims = 3)
    (hm : ¬(mode = StatsMode.other))
    (hidx : index < statsNmax mode d0 d1 d2)
    (hlo : 0 < lo) (hhi : hi < statsNsamp mode d0 d1 d2) (hlh : lo = hi) :
    smf_calc_stats stat ndims d0 d1 d2 arr mode index lo hi status
      = (SaiStatus.err, none, none) := by
  subst hst
  subst h3
  subst hlh
  have hr : (statsRange (statsNsamp mode d0 d1 d2) lo lo).1
      = (statsRange (statsNsamp mode d0 d1 d2) lo lo).2 := by
    have hz : ¬(lo = 0) := by omega
    simp [statsRange, hz]
  unfold smf_calc_stats
  rw [if_neg (by simp), if_neg (by simp), if_neg hm, if_neg (by omega),
    if_neg (by omega), if_neg (by omega), if_pos hr]

/-- C5 witness: the amended degenerate-range behaviour at the concrete
input of the counterexample. -/
theorem smf_calc_stats_degenerate_range_err_witness :
    (0 : Nat) < 2 ∧
    smf_calc_stats statZero 3 2 2 4 arrOnes StatsMode.b 0 2 2 SaiStatus.ok
      = (SaiStatus.err, none, none) := by
  exact ⟨by decide,
    smf_calc_stats_degenerate_range_err statZero 3 2 2 4 arrOnes StatsMode.b
      0 2 2 SaiStatus.ok rfl rfl (by decide) (by decide) (by decide)
      (by decide) rfl⟩

/-- C6: the solver output block derives the exposure-time array: at every
pixel of the map with a defined value it equals the hit count times the
per-sample integration time, a pixel with undefined map value gets the
undefined sentinel, and the output carries the median of that array across
valid pixels. -/
theorem makemap_exp_time_output (steptime : ℚ) (map : Nat → Option ℚ)
    (hitsmap : Nat → Nat) (nxy i : Nat) (hi : i < nxy) :
    (map i = none → (makemapExpTime steptime map hitsmap nxy).1 i = none) ∧
    (∀ v, map i = some v →
      (makemapExpTime steptime map hitsmap nxy).1 i
        = some (steptime * (hitsmap i : ℚ))) ∧
    (makemapExpTime steptime map hitsmap nxy).2
      = medianValid ((List.range nxy).map
          (exp_time_arr steptime map hitsmap nxy)) := by
  refine ⟨?_, ?_, rfl⟩
  · intro h
    simp [makemapExpTime, exp_time_arr, hi, expTimePix, h]
  · intro v hv
    simp [makemapExpTime, exp_time_arr, hi, expTimePix, hv]

/-- C6 witness: pixel 0 of the scenario map (value 3, 3 hits, steptime 2)
gets exposure time 6. -/
theorem makemap_exp_time_output_witness :
    (0 : Nat) < 2 ∧
    (makemapExpTime 2 mapScenario hitsThree 2).1 0 = some (2 * (3 : ℚ)) := by
  refine ⟨by decide, ?_⟩
  have h := makemap_exp_time_output 2 mapScenario hitsThree 2 0 (by decide)
  exact h.2.1 3 rfl
